import Mathlib

/-!
Verification of `bluetool/blueserver.py` (and the `Bluetooth.disconnect`
collaborator from `bluetool/bluetool.py`) against its specification.

The Python code is shallowly embedded: every external effect (D-Bus
registration, socket bind/accept/recv/send/close) is represented by an
explicit outcome in an environment record, and each Python method becomes a
Lean function from that environment (and the object state) to the resulting
state plus a trace of the observable events (chunks forwarded, sockets
closed, `disconnect` calls, exceptions escaping).
-/

namespace Bluetool

/-- Python exceptions that matter for the embedded control flow.
`ioError` stands for `IOError` (of which `socket.error` is a subclass in
Python 2.6+); `attrError` stands for `AttributeError` (raised by
`None.close()`). -/
inductive PyExc
  | ioError
  | attrError
deriving DecidableEq, Repr

/-! ## Address derivation (`BluetoothServer.NewConnection`, lines 116-118)

```python
address = str(path)
address = address[len(address)-17:len(address)]
address = address.replace("_", ":")
```
-/

/-- Character substitution performed by `address.replace("_", ":")`:
since both the pattern and the replacement are single characters,
Python's `str.replace` acts characterwise. -/
def subColon (c : Char) : Char := if c = '_' then ':' else c

/-- Python slice `s[i:len(s)]` where `i` is a possibly negative int:
a negative start counts from the end of the string, clamped at 0. -/
def pySliceFrom (s : String) (i : Int) : List Char :=
  if i < 0 then s.toList.drop (((s.length : Int) + i).toNat)
  else s.toList.drop i.toNat

/-- Address derivation of `NewConnection`: take the slice
`address[len(address)-17:len(address)]` and replace each `_` by `:`. -/
def deriveAddress (s : String) : String :=
  String.mk ((pySliceFrom s ((s.length : Int) - 17)).map subColon)

/-! ## The relay loop (`NewConnection`, lines 133-142)

```python
try:
    while True:
        data = tcp_server.read()
        if not data:
            raise TCPConnectionError("External connection shutdown")
        server_sock.send(data)
except IOError as error:
    print "Abort connection by user from bluetooth device"
except TCPConnectionError as error:
    print error
```
-/

/-- Outcome of the relay loop.
`shutdown` is the `TCPConnectionError` branch (zero-length read,
"External connection shutdown"); `ioErrorCaught` is the `IOError` branch
(a failing `recv` or a failing Bluetooth-side `send`); `blocked` models
the loop blocking forever inside `tcp_server.read()` because no further
data (and no close) ever arrives. -/
inductive LoopResult
  | shutdown
  | ioErrorCaught
  | blocked
deriving DecidableEq, Repr

/-- One session's relay loop. `reads` is the sequence of values successive
`client_socket.recv` calls would return (a byte chunk; `[]` is a
zero-length read, i.e. orderly peer shutdown). `i` counts iterations;
`rf = some k` makes the `k`-th `recv` raise `socket.error ⊆ IOError`, and
`bf = some k` makes the `k`-th `server_sock.send` raise `IOError`.
Returns the chunks successfully sent to the Bluetooth endpoint, in order,
and how the loop ended. -/
def relayLoop : List (List Nat) → Nat → Option Nat → Option Nat →
    List (List Nat) × LoopResult
  | [], _, _, _ => ([], LoopResult.blocked)
  | data :: rest, i, rf, bf =>
    if rf = some i then ([], LoopResult.ioErrorCaught)
    else if data = [] then ([], LoopResult.shutdown)
    else if bf = some i then ([], LoopResult.ioErrorCaught)
    else
      let r := relayLoop rest (i + 1) rf bf
      (data :: r.1, r.2)

/-! ## `BluetoothServer.NewConnection` (lines 113-150) as a trace function -/

/-- How one invocation of the `NewConnection` callback ends: it either
returns normally to the control plane, raises an uncaught Python
exception into the control plane, or never returns (blocked in
`accept`/`recv`). -/
inductive SessionOutcome
  | returned
  | raised (e : PyExc)
  | blocked
deriving DecidableEq, Repr

/-- Environment of one `NewConnection` invocation: the opaque D-Bus object
path and the outcome of every external operation the callback performs.
`bindOk` is whether `TCPServer.initialize` succeeds (bind/listen),
`acceptOk` whether `server_socket.accept` returns (rather than raising
`socket.error`), `reads`/`readFailAt`/`btFailAt` drive the relay loop,
and the three `...CloseOk` fields are the outcomes of `server_sock.close()`,
`client_socket.close()` and `server_socket.close()` respectively. -/
structure NCEnv where
  path : String
  bindOk : Bool
  acceptOk : Bool
  reads : List (List Nat)
  readFailAt : Option Nat
  btFailAt : Option Nat
  btCloseOk : Bool
  clientCloseOk : Bool
  serverCloseOk : Bool
deriving DecidableEq, Repr

/-- Observable trace of one `NewConnection` invocation. `sentToBt` is the
list of chunks delivered to the Bluetooth-side endpoint; the three
`...CloseCalls` fields count the close calls executed on the Bluetooth-side
socket, the accepted TCP client socket and the TCP listening socket;
`disconnectCalls` lists the addresses passed to `Bluetooth.disconnect`;
`loopResult` is how the relay loop exited (`none` if it was never entered
or never exited); `outcome` is how the callback itself ended. -/
structure NCTrace where
  address : String
  sentToBt : List (List Nat)
  btCloseCalls : Nat
  clientCloseCalls : Nat
  serverCloseCalls : Nat
  disconnectCalls : List String
  loopResult : Option LoopResult
  outcome : SessionOutcome
deriving DecidableEq, Repr

/-- Shallow embedding of `BluetoothServer.NewConnection`:

* derive the address from the path;
* build a `TCPServer` and call its `initialize`; on failure raise
  `TCPServerError`, which the outer `except TCPServerError` catches and
  prints — then fall through to `Bluetooth().disconnect(address)`;
* `accept_connection()`: a `socket.error` here is caught by no handler
  (only `TCPServerError` is caught at this level) and escapes the callback;
* run the relay loop; both the `IOError` and the `TCPConnectionError`
  handlers fall through to `server_sock.close()` then
  `tcp_server.kill_connection()` (client close, then listener close);
  a failing close raises `IOError`, which nothing catches;
* finally `Bluetooth().disconnect(address)` is executed (its own
  internal D-Bus errors are swallowed and turned into `False`, so it
  never raises) and the callback returns. -/
def NewConnection (e : NCEnv) : NCTrace :=
  let addr := deriveAddress e.path
  if e.bindOk then
    if e.acceptOk then
      let sent := (relayLoop e.reads 0 e.readFailAt e.btFailAt).1
      let res := (relayLoop e.reads 0 e.readFailAt e.btFailAt).2
      if res = LoopResult.blocked then
        ⟨addr, sent, 0, 0, 0, [], none, SessionOutcome.blocked⟩
      else if e.btCloseOk then
        if e.clientCloseOk then
          if e.serverCloseOk then
            ⟨addr, sent, 1, 1, 1, [addr], some res, SessionOutcome.returned⟩
          else
            ⟨addr, sent, 1, 1, 1, [], some res,
              SessionOutcome.raised PyExc.ioError⟩
        else
          ⟨addr, sent, 1, 1, 0, [], some res,
            SessionOutcome.raised PyExc.ioError⟩
      else
        ⟨addr, sent, 1, 0, 0, [], some res,
          SessionOutcome.raised PyExc.ioError⟩
    else
      ⟨addr, [], 0, 0, 0, [], none, SessionOutcome.raised PyExc.ioError⟩
  else
    ⟨addr, [], 0, 0, 0, [addr], none, SessionOutcome.returned⟩

/-! ## `SerialPort` (lines 13-43)

```python
def initialize(self):
    try:
        self.manager.RegisterProfile(self.profile_path, self.uuid, self.opts)
    except dbus.exceptions.DBusException as error:
        print error
        return False
    return True
```
-/

/-- Control-plane rejections of `RegisterProfile`, delivered by the dbus
binding as `dbus.exceptions.DBusException`. -/
inductive DBusErr
  | malformedUUID
  | duplicateRegistration
  | other
deriving DecidableEq, Repr

/-- Shallow embedding of `SerialPort.initialize` (the Python name), applied
to the outcome of the `RegisterProfile` D-Bus call: catches the
`DBusException`, prints it and returns `False`; returns `True` when the
call succeeded. The Lean return type `Bool` (not `Except`) reflects that
no exception leaves this method for any control-plane outcome. -/
def SerialPort.initProfile (outcome : Except DBusErr Unit) : Bool :=
  match outcome with
  | Except.ok _ => true
  | Except.error _ => false

/-! ## `BluetoothServer.run` and `BluetoothServer.quit` (lines 95-111)

```python
def run(self):
    if not self.spp.initialize():
        return False
    self.server_process = multiprocessing.Process(target=self.mainloop.run)
    self.server_process.start()
    return True

def quit(self):
    if self.server_process is not None:
        self.mainloop.quit()
        self.server_process.terminate()
        self.server_process.join()
        self.server_process = None
    self.spp.deinitialize()
```
-/

/-- Observable state of a `BluetoothServer`: `running` is whether
`self.server_process` is not `None`. -/
structure ServerState where
  running : Bool
deriving DecidableEq, Repr

/-- External actions `run` can perform: starting the mainloop process. -/
inductive RunAct
  | startProcess
deriving DecidableEq, Repr

/-- External actions `quit` can perform, in order of the Python code:
`self.mainloop.quit()`, `self.server_process.terminate()`,
`self.server_process.join()`, and `self.spp.deinitialize()` (the
best-effort `UnregisterProfile` call). -/
inductive QuitAct
  | mainloopQuit
  | terminateProc
  | joinProc
  | deinitProfile
deriving DecidableEq, Repr

/-- Shallow embedding of `BluetoothServer.run`: returns the Python return
value, the new server state and the list of external actions performed.
`reg` is the outcome of the `RegisterProfile` call made inside
`self.spp.initialize()`. -/
def BluetoothServer.run (reg : Except DBusErr Unit) (s : ServerState) :
    Bool × ServerState × List RunAct :=
  if SerialPort.initProfile reg then
    (true, ⟨true⟩, [RunAct.startProcess])
  else
    (false, s, [])

/-- Shallow embedding of `BluetoothServer.quit`: returns the new server
state and the list of external actions performed, in order. -/
def BluetoothServer.quit (s : ServerState) : ServerState × List QuitAct :=
  if s.running then
    (⟨false⟩, [QuitAct.mainloopQuit, QuitAct.terminateProc,
      QuitAct.joinProc, QuitAct.deinitProfile])
  else
    (s, [QuitAct.deinitProfile])

/-! ## `TCPServer` socket state (lines 51-77)

```python
def __init__(self, tcp_port, buffer_size=1024):
    self.server_socket = None
    self.client_socket = None
    ...

def initialize(self):
    try:
        self.server_socket = socket.socket(socket.AF_INET, socket.SOCK_STREAM)
        self.server_socket.setsockopt(socket.SOL_SOCKET, socket.SO_REUSEADDR, 1)
        self.server_socket.bind(self.address)
        self.server_socket.listen(5)
    except socket.error as error:
        print error
        return False
    return True

def accept_connection(self):
    self.client_socket, client_info = self.server_socket.accept()
    return client_info

def kill_connection(self):
    self.client_socket.close()
    self.server_socket.close()
```

The OS socket table is modelled as the list of ports with a live (open,
bound) listener: `bind` fails exactly when the port is already bound by a
live listener, and closing a bound socket releases its port (the
`SO_REUSEADDR` option makes lingering TIME_WAIT state irrelevant to a
rebind, so it is not modelled separately). -/

/-- OS-level network state: the ports currently held by live listeners. -/
structure NetState where
  boundPorts : List Nat
deriving DecidableEq, Repr

/-- A server (listening) socket object: whether it is still open, and the
port it is bound to, if any. -/
structure ServerSock where
  isOpen : Bool
  boundPort : Option Nat
deriving DecidableEq, Repr

/-- A `TCPServer` object's socket attributes. `server_socket`/
`client_socket` are `none` when the Python attribute is `None`; an
accepted client socket is `some b` with `b` its open flag. -/
structure TCPSrv where
  server_socket : Option ServerSock
  client_socket : Option Bool
deriving DecidableEq, Repr

/-- The state `TCPServer.__init__` leaves behind: both socket attributes
are `None`. -/
def TCPSrv.new : TCPSrv := ⟨none, none⟩

/-- Closing a server socket: a no-op if already closed, otherwise the
socket becomes closed and its bound port (if any) is released. -/
def closeServerSock (s : ServerSock) (net : NetState) :
    ServerSock × NetState :=
  if s.isOpen then
    (⟨false, s.boundPort⟩,
      match s.boundPort with
      | some p => ⟨net.boundPorts.erase p⟩
      | none => net)
  else (s, net)

/-- Shallow embedding of `TCPServer.initialize`: create a fresh socket
(overwriting `self.server_socket`), then `bind`; on a `socket.error`
(the port is already bound) print and return `False`, leaving the fresh
unbound socket in the attribute; otherwise `listen` succeeds and the
method returns `True`. -/
def TCPSrv.initServer (p : Nat) (srv : TCPSrv) (net : NetState) :
    Bool × TCPSrv × NetState :=
  if p ∈ net.boundPorts then
    (false, { srv with server_socket := some ⟨true, none⟩ }, net)
  else
    (true, { srv with server_socket := some ⟨true, some p⟩ },
      ⟨p :: net.boundPorts⟩)

/-- Shallow embedding of a successful `TCPServer.accept_connection`: the
accepted client socket is stored in `self.client_socket`. -/
def TCPSrv.accept_connection (srv : TCPSrv) : TCPSrv :=
  { srv with client_socket := some true }

/-- Shallow embedding of `TCPServer.kill_connection`: close the client
socket, then the server socket. If `self.client_socket` is still `None`,
`None.close()` raises `AttributeError` and the server socket is not
touched; same for `self.server_socket` after the client close. The third
component is the exception raised, if any. -/
def TCPSrv.kill_connection (srv : TCPSrv) (net : NetState) :
    TCPSrv × NetState × Option PyExc :=
  match srv.client_socket with
  | none => (srv, net, some PyExc.attrError)
  | some _ =>
    let srv1 : TCPSrv := { srv with client_socket := some false }
    match srv1.server_socket with
    | none => (srv1, net, some PyExc.attrError)
    | some s =>
      let r := closeServerSock s net
      ({ srv1 with server_socket := some r.1 }, r.2, none)

/-! ## Theorems for the claims -/

/-- C4: for every opaque path made of an arbitrary part followed by 17
trailing characters, the address derived in `NewConnection` is that
17-character suffix with every underscore replaced by a colon. (The claim
restricts the suffix to the shape `XX_XX_XX_XX_XX_XX`; the property holds
for every 17-character suffix, hence in particular for those.) -/
theorem deriveAddress_suffix_subColon (pre suf : List Char)
    (h : suf.length = 17) :
    deriveAddress (String.mk (pre ++ suf)) = String.mk (suf.map subColon) := by
  have hlist : (String.mk (pre ++ suf)).toList = pre ++ suf := rfl
  have hlen : (String.mk (pre ++ suf)).length = pre.length + 17 := by
    simp [String.length, h]
  have hix : ((String.mk (pre ++ suf)).length : Int) - 17 = (pre.length : Int) := by
    rw [hlen]; push_cast; ring
  have hnonneg : ¬ ((pre.length : Int) < 0) := by
    simp [Int.not_lt]
  rw [deriveAddress, pySliceFrom, hix, hlist, if_neg hnonneg,
    Int.toNat_natCast, List.drop_left]

/-- C4 witness: the spec's example path `…/dev_AA_BB_CC_DD_EE_FF` derives
the address `AA:BB:CC:DD:EE:FF`. -/
theorem deriveAddress_suffix_subColon_witness :
    "AA_BB_CC_DD_EE_FF".toList.length = 17 ∧
    deriveAddress (String.mk ("/org/bluez/hci0/dev_".toList ++
      "AA_BB_CC_DD_EE_FF".toList)) = "AA:BB:CC:DD:EE:FF" :=
  ⟨by decide,
    (deriveAddress_suffix_subColon "/org/bluez/hci0/dev_".toList
      "AA_BB_CC_DD_EE_FF".toList (by decide)).trans (by decide)⟩

/-- C5 counterexample: calling `quit()` when the server is not running is
not a no-op — it still performs an external action (it calls
`self.spp.deinitialize()`, which attempts `UnregisterProfile` on the
control plane). -/
theorem quit_stopped_not_noop :
    (BluetoothServer.quit ⟨false⟩).2 ≠ ([] : List QuitAct) := by
  decide

/-- C5 amended: calling `quit()` when the server is not running leaves the
server state unchanged and performs none of the process-teardown actions
(`mainloop.quit`, `terminate`, `join`), but it does still call
`SerialPort.deinitialize` (best-effort profile unregistration). -/
theorem quit_stopped_only_deinit (s : ServerState) (h : s.running = false) :
    BluetoothServer.quit s = (s, [QuitAct.deinitProfile]) := by
  simp [BluetoothServer.quit, h]

/-- C5 amended witness: concrete evaluation at the stopped state. -/
theorem quit_stopped_only_deinit_witness :
    BluetoothServer.quit ⟨false⟩ = (⟨false⟩, [QuitAct.deinitProfile]) :=
  quit_stopped_only_deinit ⟨false⟩ rfl

/-- C7: `BluetoothServer.run` returns `false`, changes no state and starts
no background process when profile registration fails; on registration
success it starts the mainloop process and returns `true`. -/
theorem run_starts_iff_registered (err : DBusErr) (s : ServerState) :
    BluetoothServer.run (Except.error err) s = (false, s, []) ∧
    BluetoothServer.run (Except.ok ()) s =
      (true, ⟨true⟩, [RunAct.startProcess]) := by
  constructor <;> simp [BluetoothServer.run, SerialPort.initProfile]

/-- C8: `SerialPort.initialize` returns `true` exactly when the
`RegisterProfile` call succeeded, and returns `false` on every
control-plane rejection; its total `Bool` type witnesses that no
exception leaves the method for any control-plane outcome. -/
theorem initProfile_true_iff_registered (o : Except DBusErr Unit) :
    SerialPort.initProfile o = true ↔ o = Except.ok () := by
  cases o with
  | ok u => cases u; simp [SerialPort.initProfile]
  | error e => simp [SerialPort.initProfile]

/-- C10: calling `TCPServer.kill_connection` while `client_socket` is still
`None` raises `AttributeError` on the client-socket close, and neither the
server object nor the OS socket state changes — in particular the
listening socket is not closed. -/
theorem kill_before_accept (srv : TCPSrv) (net : NetState)
    (h : srv.client_socket = none) :
    TCPSrv.kill_connection srv net = (srv, net, some PyExc.attrError) := by
  unfold TCPSrv.kill_connection
  rw [h]

/-- C10 witness: a freshly constructed `TCPServer` whose listener is bound
but with no accepted client. -/
theorem kill_before_accept_witness :
    TCPSrv.kill_connection ⟨some ⟨true, some 8043⟩, none⟩ ⟨[8043]⟩ =
      (⟨some ⟨true, some 8043⟩, none⟩, ⟨[8043]⟩, some PyExc.attrError) :=
  kill_before_accept ⟨some ⟨true, some 8043⟩, none⟩ ⟨[8043]⟩ rfl

/-- C9: a full session on a free port — `initialize` (succeeds), accept,
`kill_connection` — releases the listener's port, so a fresh
`TCPServer.initialize` on the same port succeeds afterwards: no listener
socket is leaked across two sequential sessions. -/
theorem no_listener_leak (net : NetState) (port : Nat)
    (h : port ∉ net.boundPorts) :
    (TCPSrv.initServer port TCPSrv.new net).1 = true ∧
    (TCPSrv.kill_connection
      (TCPSrv.accept_connection (TCPSrv.initServer port TCPSrv.new net).2.1)
      (TCPSrv.initServer port TCPSrv.new net).2.2).2.2 = none ∧
    (TCPSrv.initServer port TCPSrv.new
      (TCPSrv.kill_connection
        (TCPSrv.accept_connection (TCPSrv.initServer port TCPSrv.new net).2.1)
        (TCPSrv.initServer port TCPSrv.new net).2.2).2.1).1 = true := by
  simp [TCPSrv.initServer, TCPSrv.new, TCPSrv.accept_connection,
    TCPSrv.kill_connection, closeServerSock, h, List.erase_cons_head]

/-- C9 witness: two sequential sessions on port 8043 starting from an empty
socket table. -/
theorem no_listener_leak_witness :
    (TCPSrv.initServer 8043 TCPSrv.new ⟨[]⟩).1 = true ∧
    (TCPSrv.kill_connection
      (TCPSrv.accept_connection (TCPSrv.initServer 8043 TCPSrv.new ⟨[]⟩).2.1)
      (TCPSrv.initServer 8043 TCPSrv.new ⟨[]⟩).2.2).2.2 = none ∧
    (TCPSrv.initServer 8043 TCPSrv.new
      (TCPSrv.kill_connection
        (TCPSrv.accept_connection (TCPSrv.initServer 8043 TCPSrv.new ⟨[]⟩).2.1)
        (TCPSrv.initServer 8043 TCPSrv.new ⟨[]⟩).2.2).2.1).1 = true :=
  no_listener_leak ⟨[]⟩ 8043 (by decide)

/-- Helper: with no injected read/write failures, a read stream of
non-empty chunks followed by a zero-length read makes the relay loop
forward exactly those chunks, in order, and exit through the
`TCPConnectionError` branch. -/
theorem relayLoop_shutdown (bs : List (List Nat)) (i : Nat)
    (h : ∀ b ∈ bs, b ≠ []) :
    relayLoop (bs ++ [[]]) i none none = (bs, LoopResult.shutdown) := by
  induction bs generalizing i with
  | nil => simp [relayLoop]
  | cons b rest ih =>
    have hb : b ≠ [] := h b (List.mem_cons_self b rest)
    have ih' := ih (i + 1) (fun x hx => h x (List.mem_cons_of_mem b hx))
    simp [relayLoop, hb, ih']

/-- C1: when the listener binds, a client is accepted, and the TCP client
delivers non-empty chunks `bs` followed by a zero-length read (orderly
close), with no I/O failures, `NewConnection` sends exactly `bs`, in
order, to the Bluetooth-side endpoint, the relay loop ends through the
`TCPConnectionError` (`ExternalShutdown`) branch, both endpoints are
closed, `Bluetooth.disconnect` is called exactly once with the derived
address, and the callback returns normally. -/
theorem relay_then_shutdown (e : NCEnv) (bs : List (List Nat))
    (hbind : e.bindOk = true) (hacc : e.acceptOk = true)
    (hrf : e.readFailAt = none) (hbf : e.btFailAt = none)
    (hreads : e.reads = bs ++ [[]]) (hne : ∀ b ∈ bs, b ≠ [])
    (hc1 : e.btCloseOk = true) (hc2 : e.clientCloseOk = true)
    (hc3 : e.serverCloseOk = true) :
    NewConnection e =
      ⟨deriveAddress e.path, bs, 1, 1, 1, [deriveAddress e.path],
        some LoopResult.shutdown, SessionOutcome.returned⟩ := by
  have hloop := relayLoop_shutdown bs 0 hne
  simp [NewConnection, hbind, hacc, hrf, hbf, hreads, hloop, hc1, hc2, hc3]

/-- C1 witness: three chunks then an orderly close. -/
theorem relay_then_shutdown_witness :
    NewConnection ⟨"/org/bluez/hci0/dev_AA_BB_CC_DD_EE_FF", true, true,
        [[1], [2], [3], []], none, none, true, true, true⟩ =
      ⟨deriveAddress "/org/bluez/hci0/dev_AA_BB_CC_DD_EE_FF",
        [[1], [2], [3]], 1, 1, 1,
        [deriveAddress "/org/bluez/hci0/dev_AA_BB_CC_DD_EE_FF"],
        some LoopResult.shutdown, SessionOutcome.returned⟩ :=
  relay_then_shutdown _ [[1], [2], [3]] rfl rfl rfl rfl rfl (by decide)
    rfl rfl rfl

/-- C2 counterexample: when `TCPServer.initialize` fails, the
`TCPServerError` is caught by the outer handler and control falls through
to `Bluetooth().disconnect(address)` — so `disconnect` IS invoked for that
session, contradicting the claim that it is not. -/
theorem bind_fail_still_disconnects :
    (NewConnection ⟨"/org/bluez/hci0/dev_AA_BB_CC_DD_EE_FF", false, true,
      [], none, none, true, true, true⟩).disconnectCalls ≠ [] := by
  decide

/-- C2 amended: when the TCP listener fails to bind, the session aborts
before any Bluetooth-side interaction — nothing is relayed, no endpoint is
created or closed, and the callback returns normally — but
`Bluetooth.disconnect` is still invoked exactly once with the derived
address (the `disconnect` call sits after the `try`/`except` block, so it
runs on the bind-failure path too). -/
theorem bind_fail_aborts_early (e : NCEnv) (h : e.bindOk = false) :
    NewConnection e =
      ⟨deriveAddress e.path, [], 0, 0, 0, [deriveAddress e.path], none,
        SessionOutcome.returned⟩ := by
  simp [NewConnection, h]

/-- C2 amended witness: concrete bind-failure environment. -/
theorem bind_fail_aborts_early_witness :
    NewConnection ⟨"/org/bluez/hci0/dev_AA_BB_CC_DD_EE_FF", false, true,
        [], none, none, true, true, true⟩ =
      ⟨deriveAddress "/org/bluez/hci0/dev_AA_BB_CC_DD_EE_FF", [], 0, 0, 0,
        [deriveAddress "/org/bluez/hci0/dev_AA_BB_CC_DD_EE_FF"], none,
        SessionOutcome.returned⟩ :=
  bind_fail_aborts_early _ rfl

/-- C3: in every session that reaches the relay loop (bind and accept both
succeeded) and whose loop exits — through the zero-length-read branch or
through the `IOError` branch raised by a Bluetooth-side write — the
Bluetooth-side socket, the accepted client socket and the listening socket
are each closed exactly once, and `disconnect` is invoked with the derived
address. (Close operations themselves are assumed not to fail.) -/
theorem endpoints_closed_once (e : NCEnv)
    (hbind : e.bindOk = true) (hacc : e.acceptOk = true)
    (hexit : (relayLoop e.reads 0 e.readFailAt e.btFailAt).2 ≠
      LoopResult.blocked)
    (hc1 : e.btCloseOk = true) (hc2 : e.clientCloseOk = true)
    (hc3 : e.serverCloseOk = true) :
    (NewConnection e).btCloseCalls = 1 ∧
    (NewConnection e).clientCloseCalls = 1 ∧
    (NewConnection e).serverCloseCalls = 1 ∧
    (NewConnection e).disconnectCalls = [deriveAddress e.path] := by
  simp [NewConnection, hbind, hacc, hexit, hc1, hc2, hc3]

/-- C3 witness: the spec's `PeerAbort` scenario — the Bluetooth-side write
fails after 3 chunks were successfully forwarded. -/
theorem endpoints_closed_once_witness :
    ((relayLoop [[1], [2], [3], [4]] 0 none (some 3)).2 ≠
      LoopResult.blocked) ∧
    ((NewConnection ⟨"/org/bluez/hci0/dev_AA_BB_CC_DD_EE_FF", true, true,
        [[1], [2], [3], [4]], none, some 3, true, true, true⟩).btCloseCalls
        = 1 ∧
      (NewConnection ⟨"/org/bluez/hci0/dev_AA_BB_CC_DD_EE_FF", true, true,
        [[1], [2], [3], [4]], none, some 3, true, true,
        true⟩).clientCloseCalls = 1 ∧
      (NewConnection ⟨"/org/bluez/hci0/dev_AA_BB_CC_DD_EE_FF", true, true,
        [[1], [2], [3], [4]], none, some 3, true, true,
        true⟩).serverCloseCalls = 1 ∧
      (NewConnection ⟨"/org/bluez/hci0/dev_AA_BB_CC_DD_EE_FF", true, true,
        [[1], [2], [3], [4]], none, some 3, true, true,
        true⟩).disconnectCalls =
        [deriveAddress "/org/bluez/hci0/dev_AA_BB_CC_DD_EE_FF"]) :=
  ⟨by decide,
    endpoints_closed_once _ rfl rfl (by decide) rfl rfl rfl⟩

/-- C6 counterexample: a `socket.error` raised inside
`accept_connection()` is caught by no handler of `NewConnection` (the
outer `except` clause only catches `TCPServerError`), so the callback does
NOT return normally — the exception propagates to the control plane. -/
theorem accept_error_escapes :
    (NewConnection ⟨"/org/bluez/hci0/dev_AA_BB_CC_DD_EE_FF", true, false,
      [], none, none, true, true, true⟩).outcome =
      SessionOutcome.raised PyExc.ioError := by
  decide

/-- C6 amended: the callback handles bind failures, TCP read errors and
Bluetooth-side write errors internally and returns normally; but an error
raised in `accept_connection`, or while closing either endpoint, is not
caught and propagates out of the callback. -/
theorem callback_returns_when_accept_and_closes_ok (e : NCEnv)
    (h : e.bindOk = false ∨
      (e.acceptOk = true ∧ e.btCloseOk = true ∧ e.clientCloseOk = true ∧
        e.serverCloseOk = true ∧
        (relayLoop e.reads 0 e.readFailAt e.btFailAt).2 ≠
          LoopResult.blocked)) :
    (NewConnection e).outcome = SessionOutcome.returned := by
  rcases h with h | ⟨h1, h2, h3, h4, h5⟩
  · simp [NewConnection, h]
  · by_cases hb : e.bindOk
    · simp [NewConnection, hb, h1, h2, h3, h4, h5]
    · simp [NewConnection, hb]

/-- C6 amended witness: a TCP read error at the first iteration (handled
by the `IOError` branch) still lets the callback return normally. -/
theorem callback_returns_witness :
    (NewConnection ⟨"/org/bluez/hci0/dev_AA_BB_CC_DD_EE_FF", true, true,
      [[5]], some 0, none, true, true, true⟩).outcome =
      SessionOutcome.returned :=
  callback_returns_when_accept_and_closes_ok _
    (Or.inr ⟨rfl, rfl, rfl, rfl, by decide⟩)

end Bluetool
